import Mathlib

/-!
Verification of the rocrate-validator CLI validation layer.

This file embeds, as executable Lean definitions, the code of
`rocrate_validator/cli/commands/validate.py` and
`rocrate_validator/profiles/ro-crate/must/0_file_descriptor_format.py`,
together with the interface of the core model (`rocrate_validator/models.py`,
`rocrate_validator/services.py`, `rocrate_validator/requirements/python.py`),
which is not part of the visible sources and is therefore modelled from the
specification.  Theorems about these definitions settle the spec claims.
-/

namespace RocrateValidator

/-- Modelled from the spec: the Severity scale of `models.py` (not in the
visible sources).  §3: "ordered value from a fixed small set
(e.g. OPTIONAL < RECOMMENDED < REQUIRED); total order; immutable". -/
inductive Severity where
  | OPTIONAL
  | RECOMMENDED
  | REQUIRED
deriving DecidableEq, BEq, Repr

/-- Modelled from the spec: the numeric value backing the total order of
Severity (Python `IntEnum`-style comparison `severity_validation <= severity`). -/
def Severity.value : Severity → Nat
  | .OPTIONAL => 0
  | .RECOMMENDED => 2
  | .REQUIRED => 4

/-- Modelled from the spec: Python comparison `a <= b` between Severity values. -/
def sevLE (a b : Severity) : Bool := a.value ≤ b.value

/-- Modelled from the spec: `Severity.name` of the Python enum member. -/
def Severity.sname : Severity → String
  | .OPTIONAL => "OPTIONAL"
  | .RECOMMENDED => "RECOMMENDED"
  | .REQUIRED => "REQUIRED"

/-- An Issue as described in §3: severity, message, and a reference to the
check that raised it (only these fields are needed by the claims). -/
structure Issue where
  severity : Severity
  message : String
  checkIdentifier : String

/-- Modelled from the spec: the Error severity used when a test-procedure
exception is converted into an Issue (§4.4, §7).  On the three-point scale
of §3 it is the maximal level. -/
def errorSeverity : Severity := Severity.REQUIRED

/-- A JSON value, for embedding the parsed file-descriptor document. -/
inductive JValue where
  | null
  | bool (b : Bool)
  | num (n : Int)
  | str (s : String)
  | arr (elems : List JValue)
  | obj (fields : List (String × JValue))

/-- Per-run mutable state visible to the checks of
`0_file_descriptor_format.py`: the target's file-descriptor path, whether
that path exists, its size, and the outcome of `json.load` on it
(`none` when opening/parsing raises).  Modelled from the spec (§3,
"Validation Context") for the fields whose implementation (`models.py`)
is not in the visible sources. -/
structure ValidationContext where
  rel_fd_path : String
  file_descriptor_path : String
  file_descriptor_exists : Bool
  file_descriptor_size : Nat
  file_descriptor_json : Option JValue

/-- Outcome of one test procedure of a native check, in state-passing form:
Python procedures mutate `context.result` (modelled as the returned issue
list) and either return a boolean or raise (the `exn` constructor carries
the issues appended to the result before the exception was raised). -/
inductive ProcOutcome where
  | ok (passed : Bool) (issues : List Issue)
  | exn (issues : List Issue) (msg : String)

/-- A native check: identifier, level severity, and its ordered test
procedures (§3, check variant (a)).  The procedure list is the load-time
registry of `@check`-decorated methods. -/
structure Check where
  identifier : String
  severity : Severity
  procs : List (ValidationContext → ProcOutcome)

/-- A Requirement (§3): identifier, Severity, hidden flag, ordered checks.
Declaration order is the list order. -/
structure Requirement where
  identifier : String
  severity : Severity
  hidden : Bool
  checks : List Check

/-- A Profile (§3) after inheritance resolution: identifier and ordered
requirements. -/
structure Profile where
  identifier : String
  requirements : List Requirement

/-- Modelled from the spec: `Requirement.get_checks_by_level` of `models.py`
(not in the visible sources).  §4.3: filters the requirement's checks to
those whose Severity satisfies the threshold predicate with respect to the
given level, preserving declaration order. -/
def get_checks_by_level (r : Requirement) (level : Severity) : List Check :=
  r.checks.filter (fun c => sevLE level c.severity)

/-- Modelled from the spec: the threshold predicate of §4.2 / §4.5, used by
the Orchestrator: `severity >= threshold` when `severityOnly` is false,
`severity == threshold` when true. -/
def satisfies (severity threshold : Severity) (severityOnly : Bool) : Bool :=
  if severityOnly then severity == threshold else sevLE threshold severity

/-- The statistics record built by `__compute_profile_stats__`
(`validate.py`).  The two Python dicts keyed by Severity are modelled as
total functions defaulting to 0 (the Python code initializes missing keys
to 0 before any increment, so the counting behaviour coincides). -/
structure ProfileStats where
  total_requirements : Nat
  total_checks : Nat
  requirement_count_by_severity : Severity → Nat
  check_count_by_severity : Severity → Nat

/-- The per-requirement body of the loop of `__compute_profile_stats__`
(`validate.py`, lines 660-682).  `severity_validation` is
`Severity.get(validation_settings.get("requirement_severity"))`.  Note the
code tests `severity_validation <= severity` only; it never reads the
`requirement_severity_only` setting.  The check count uses
`get_checks_by_level` at the requirement's own severity
(`LevelCollection.get(severity.name)` denotes the level of that severity). -/
def statsStep (severity_validation : Severity) (stats : ProfileStats)
    (requirement : Requirement) : ProfileStats :=
  if requirement.hidden then stats
  else
    let severity := requirement.severity
    let stats1 :=
      if sevLE severity_validation severity then
        { stats with
          requirement_count_by_severity := fun s =>
            if s == severity then stats.requirement_count_by_severity s + 1
            else stats.requirement_count_by_severity s,
          total_requirements := stats.total_requirements + 1 }
      else stats
    if sevLE severity_validation severity then
      let num_checks := (get_checks_by_level requirement severity).length
      { stats1 with
        check_count_by_severity := fun s =>
          if s == severity then stats1.check_count_by_severity s + num_checks
          else stats1.check_count_by_severity s,
        total_checks := stats1.total_checks + num_checks }
    else stats1

/-- `__compute_profile_stats__` (`validate.py`, lines 642-695), restricted to
its counting behaviour.  `profiles` is the resolved sequence (the selected
profile followed by its inherited profiles when inheritance is enabled).
The `requirement_severity_only` setting is part of `validation_settings`
but is never read by the function; it is kept as a parameter to make that
explicit. -/
def computeProfileStats (profiles : List Profile) (severity_validation : Severity)
    (requirement_severity_only : Bool) : ProfileStats :=
  profiles.foldl
    (fun stats profile => profile.requirements.foldl (statsStep severity_validation) stats)
    ⟨0, 0, fun _ => 0, fun _ => 0⟩

/-! ## Check Runner (§4.4) -/

/-- Whether a test-procedure outcome counts as passed: a raised exception is
treated as a failed procedure (§4.4). -/
def procPassed : ProcOutcome → Bool
  | .ok b _ => b
  | .exn _ _ => false

/-- The issues a test-procedure outcome contributes to `context.result`: the
issues it appended itself, plus, for a raised exception, the single
Error-severity Issue tagged with the check identifier that the Runner
appends when converting the exception (§4.4). -/
def procIssues (checkIdentifier : String) : ProcOutcome → List Issue
  | .ok _ issues => issues
  | .exn issues msg => issues ++ [⟨errorSeverity, msg, checkIdentifier⟩]

/-- Modelled from the spec: the Check Runner for a native check
(`requirements/python.py`, not in the visible sources).  §4.4: invokes each
test procedure in declared order; an exception is caught and converted into
an Error-severity Issue tagged with the check identifier, the procedure is
treated as failed, and the remaining procedures still run; the check passes
iff all of its procedures pass.  The function is total, so no exception
ever propagates out of the run. -/
def runCheck (c : Check) (ctx : ValidationContext) : Bool × List Issue :=
  c.procs.foldl
    (fun acc p =>
      let o := p ctx
      (acc.1 && procPassed o, acc.2 ++ procIssues c.identifier o))
    (true, [])

/-! ## The checks of `0_file_descriptor_format.py` -/

/-- `FileDescriptorExistence.test_existence`: fails, recording an issue,
when the file-descriptor path does not exist.  Issues raised by the MUST
checks of this file carry the REQUIRED level. -/
def test_existence (context : ValidationContext) : ProcOutcome :=
  if !context.file_descriptor_exists then
    .ok false [⟨Severity.REQUIRED,
      "file descriptor \"" ++ context.rel_fd_path ++ "\" is not present",
      "FileDescriptorExistence"⟩]
  else .ok true []

/-- `FileDescriptorExistence.test_size`: fails, recording an issue, when the
file-descriptor path does not exist or `stat().st_size == 0`. -/
def test_size (context : ValidationContext) : ProcOutcome :=
  if !context.file_descriptor_exists then
    .ok false [⟨Severity.REQUIRED,
      "file descriptor " ++ context.rel_fd_path ++ " is empty",
      "FileDescriptorExistence"⟩]
  else if context.file_descriptor_size == 0 then
    .ok false [⟨Severity.REQUIRED,
      "RO-Crate \"" ++ context.rel_fd_path ++ "\" file descriptor is empty",
      "FileDescriptorExistence"⟩]
  else .ok true []

/-- The `FileDescriptorExistence` native check: its two `@check`-decorated
test procedures in declaration order. -/
def FileDescriptorExistence : Check :=
  ⟨"FileDescriptorExistence", Severity.REQUIRED, [test_existence, test_size]⟩

/-! ### `FileDescriptorJsonLdFormat` and its per-instance cache -/

/-- The Python exceptions the JSON-LD check procedures can raise. -/
inductive PyErr where
  | keyError
  | typeError
deriving DecidableEq, BEq, Repr

/-- `dict` lookup on the fields of a JSON object. -/
def lookupField : List (String × JValue) → String → Option JValue
  | [], _ => none
  | (k, v) :: rest, key => if k == key then some v else lookupField rest key

/-- Python subscript `v[key]` with a string key: `KeyError` when a dict
lacks the key, `TypeError` on any non-dict value. -/
def pySubscript (v : JValue) (key : String) : Except PyErr JValue :=
  match v with
  | .obj fields =>
    match lookupField fields key with
    | some x => Except.ok x
    | none => Except.error PyErr.keyError
  | _ => Except.error PyErr.typeError

/-- Whether `sub` occurs as a substring of `s` (Python `sub in s` on
strings). -/
def strContains (s sub : String) : Bool :=
  if sub == "" then true else (s.splitOn sub).length ≥ 2

/-- Python membership `key in v`: key lookup on dicts, element equality on
lists, substring on strings, `TypeError` otherwise. -/
def pyContains (key : String) : JValue → Except PyErr Bool
  | .obj fields => Except.ok (fields.any (fun f => f.1 == key))
  | .arr elems => Except.ok (elems.any (fun e =>
      match e with
      | .str s => s == key
      | _ => false))
  | .str s => Except.ok (strContains s key)
  | _ => Except.error PyErr.typeError

/-- Python iteration `for entity in v`: elements of a list, keys of a dict,
characters of a string, `TypeError` otherwise. -/
def pyIter : JValue → Except PyErr (List JValue)
  | .arr elems => Except.ok elems
  | .obj fields => Except.ok (fields.map (fun f => JValue.str f.1))
  | .str s => Except.ok (s.toList.map (fun c => JValue.str (String.mk [c])))
  | _ => Except.error PyErr.typeError

namespace FileDescriptorJsonLdFormat

/-- One entry of the `_json_dict_cache` dict:
`dict(json=..., file_descriptor_path=...)`. -/
structure JsonDictCacheEntry where
  file_descriptor_path : String
  json : JValue

/-- The mutable state of a `FileDescriptorJsonLdFormat` instance: its
`_json_dict_cache` attribute (`None` on a fresh instance). -/
structure FDState where
  json_dict_cache : Option JsonDictCacheEntry

/-- The cache-refresh branch of `get_json_dict`: on a successful
`json.load` the parsed value is stored in the instance cache keyed by the
file-descriptor path; on an exception an issue is recorded, `{}` is
returned, and the cache is left as it was. -/
def refresh_json_dict (self : FDState) (context : ValidationContext) :
    JValue × FDState × List Issue :=
  match context.file_descriptor_json with
  | some j => (j, ⟨some ⟨context.file_descriptor_path, j⟩⟩, [])
  | none =>
    (JValue.obj [], self,
      [⟨Severity.REQUIRED,
        "file descriptor \"" ++ context.rel_fd_path ++ "\" is not in the correct format",
        "FileDescriptorJsonLdFormat"⟩])

/-- `FileDescriptorJsonLdFormat.get_json_dict` (lines 67-82): returns the
cached parsed document when the cache entry matches the context's
file-descriptor path, refreshing the per-instance cache otherwise.  The
triple is (returned dict, instance state after the call, issues appended
to `context.result`). -/
def get_json_dict (self : FDState) (context : ValidationContext) :
    JValue × FDState × List Issue :=
  match self.json_dict_cache with
  | none => refresh_json_dict self context
  | some cache =>
    if cache.file_descriptor_path == context.file_descriptor_path then
      (cache.json, self, [])
    else refresh_json_dict self context

/-- The issue recorded when an entity of `@graph` lacks `attr`.  The Python
message also interpolates the entity itself (`entity.get('name', None) or
entity`), which is elided here; that interpolation can itself raise for
non-dict entities, which is likewise not modelled (no claim touches it). -/
def missingAttrIssue (context : ValidationContext) (attr : String) : Issue :=
  ⟨Severity.REQUIRED,
    "Entity of RO-Crate \"" ++ context.rel_fd_path ++
      "\" file descriptor does not contain the " ++ attr ++ " attribute",
    "FileDescriptorJsonLdFormat"⟩

/-- The loop `for entity in json_dict["@graph"]` shared by
`check_identifiers` and `check_types`: returns `False` (recording one
issue) at the first entity lacking `attr`, `True` when all entities have
it. -/
def entitiesHaveAttr (attr : String) (context : ValidationContext)
    (self : FDState) (issues : List Issue) :
    List JValue → Except PyErr Bool × FDState × List Issue
  | [] => (Except.ok true, self, issues)
  | entity :: rest =>
    match pyContains attr entity with
    | Except.error e => (Except.error e, self, issues)
    | Except.ok true => entitiesHaveAttr attr context self issues rest
    | Except.ok false =>
      (Except.ok false, self, issues ++ [missingAttrIssue context attr])

/-- The shared body of `check_identifiers` and `check_types` after the call
to `get_json_dict`: the unguarded subscript `json_dict["@graph"]`, then the
entity loop.  The first component is the procedure's Python outcome
(`Except.error` = an uncaught exception escaping the procedure). -/
def check_attr_of_entities (attr : String)
    (t : JValue × FDState × List Issue) (context : ValidationContext) :
    Except PyErr Bool × FDState × List Issue :=
  match pySubscript t.1 "@graph" with
  | Except.error e => (Except.error e, t.2.1, t.2.2)
  | Except.ok g =>
    match pyIter g with
    | Except.error e => (Except.error e, t.2.1, t.2.2)
    | Except.ok entities => entitiesHaveAttr attr context t.2.1 t.2.2 entities

/-- `FileDescriptorJsonLdFormat.check_identifiers` (lines 94-104). -/
def check_identifiers (self : FDState) (context : ValidationContext) :
    Except PyErr Bool × FDState × List Issue :=
  check_attr_of_entities "@id" (get_json_dict self context) context

/-- `FileDescriptorJsonLdFormat.check_types` (lines 106-116). -/
def check_types (self : FDState) (context : ValidationContext) :
    Except PyErr Bool × FDState × List Issue :=
  check_attr_of_entities "@type" (get_json_dict self context) context

/-- `FileDescriptorJsonLdFormat.check_context` (lines 84-92): membership
test `"@context" not in json_dict` (no unguarded subscript here). -/
def check_context (self : FDState) (context : ValidationContext) :
    Except PyErr Bool × FDState × List Issue :=
  match get_json_dict self context with
  | (json_dict, self1, issues) =>
    match pyContains "@context" json_dict with
    | Except.error e => (Except.error e, self1, issues)
    | Except.ok true => (Except.ok true, self1, issues)
    | Except.ok false =>
      (Except.ok false, self1, issues ++
        [⟨Severity.REQUIRED,
          "RO-Crate file descriptor \"" ++ context.rel_fd_path ++
            "\" does not contain a context",
          "FileDescriptorJsonLdFormat"⟩])

end FileDescriptorJsonLdFormat

/-! ## Validation Result (§4.7) and the Orchestrator (§4.5) -/

/-- Modelled from the spec: the Validation Result (§4.7, `models.py` not in
the visible sources): all Issues plus the derived passed/failed sets of
checks and requirements, built incrementally as checks execute (identified
here by their identifiers). -/
structure ValidationResult where
  issues : List Issue
  passed_checks : List String
  failed_checks : List String
  passed_requirements : List String
  failed_requirements : List String

/-- Modelled from the spec: `ValidationResult.passed(thresholdSeverity)`
(§4.7): true iff no Issue of Severity ≥ threshold exists in the result. -/
def ValidationResult.passed (r : ValidationResult) (threshold : Severity) : Bool :=
  !(r.issues.any (fun i => sevLE threshold i.severity))

/-- Configuration of one orchestrated run (§4.5 inputs). -/
structure OrchConfig where
  threshold : Severity
  severityOnly : Bool
  abortOnFirst : Bool

/-- The observable outcome of one orchestrated traversal: the accumulated
result, the identifiers of the requirements and checks actually executed
(in execution order), and whether the global fail-fast halted the
traversal. -/
structure OrchOutcome where
  result : ValidationResult
  executedRequirements : List String
  executedChecks : List String
  aborted : Bool

/-- Modelled from the spec: one check step of the Orchestrator loop (§4.5):
skipped entirely once the traversal is aborted; otherwise the Runner runs
the check, its issues are appended to the result, the check is recorded as
passed or failed, and `abortOnFirst` with a failing check halts the whole
traversal.  The boolean component is the running `requirementPassed`. -/
def checkStep (cfg : OrchConfig) (ctx : ValidationContext)
    (st : OrchOutcome × Bool) (c : Check) : OrchOutcome × Bool :=
  if st.1.aborted then st
  else
    let pr := runCheck c ctx
    let res := st.1.result
    let res1 :=
      { res with
        issues := res.issues ++ pr.2,
        passed_checks :=
          if pr.1 then res.passed_checks ++ [c.identifier] else res.passed_checks,
        failed_checks :=
          if pr.1 then res.failed_checks else res.failed_checks ++ [c.identifier] }
    ({ st.1 with
        result := res1,
        executedChecks := st.1.executedChecks ++ [c.identifier],
        aborted := !pr.1 && cfg.abortOnFirst },
      st.2 && pr.1)

/-- Modelled from the spec: the per-requirement body of the Orchestrator
(§4.5): a requirement whose severity does not satisfy the threshold
predicate is not executed and not counted; an executed requirement runs its
checks at the threshold level and, unless the traversal aborted mid-way
(the abort jumps over REQUIREMENT_END), is recorded as passed or failed.
The hidden flag is never consulted: hidden requirements still execute and
still contribute to the result (§4.5, §9). -/
def runRequirement (cfg : OrchConfig) (ctx : ValidationContext)
    (o : OrchOutcome) (r : Requirement) : OrchOutcome :=
  if o.aborted then o
  else if !(satisfies r.severity cfg.threshold cfg.severityOnly) then o
  else
    let o1 := { o with executedRequirements := o.executedRequirements ++ [r.identifier] }
    let p := (get_checks_by_level r cfg.threshold).foldl (checkStep cfg ctx) (o1, true)
    if p.1.aborted then p.1
    else
      { p.1 with
        result :=
          { p.1.result with
            passed_requirements :=
              if p.2 then p.1.result.passed_requirements ++ [r.identifier]
              else p.1.result.passed_requirements,
            failed_requirements :=
              if p.2 then p.1.result.failed_requirements
              else p.1.result.failed_requirements ++ [r.identifier] } }

/-- Modelled from the spec: one profile of the Orchestrator traversal
(§4.5): its requirements in declared order. -/
def runProfile (cfg : OrchConfig) (ctx : ValidationContext)
    (o : OrchOutcome) (p : Profile) : OrchOutcome :=
  p.requirements.foldl (runRequirement cfg ctx) o

/-- Modelled from the spec: the Orchestrator traversal (§4.5) over the
resolved profile sequence, starting from an empty result. -/
def orchestrate (cfg : OrchConfig) (ctx : ValidationContext)
    (profiles : List Profile) : OrchOutcome :=
  profiles.foldl (runProfile cfg ctx) ⟨⟨[], [], [], [], []⟩, [], [], false⟩

/-! ## Events and the `ProgressMonitor` observer (`validate.py`) -/

/-- A check together with the back-reference to its owning requirement
(`event.requirement_check.requirement`). -/
structure RequirementCheckRef where
  check : Check
  requirement : Requirement

/-- The lifecycle events of `rocrate_validator.events.EventType`, with the
payload each carries when published. -/
inductive Event where
  | profileValidationStart (profile : Profile)
  | requirementValidationStart
  | requirementCheckValidationStart
  | requirementCheckValidationEnd (requirement_check : RequirementCheckRef)
      (validation_result : Option Bool)
  | requirementValidationEnd (requirement : Requirement) (validation_result : Bool)
  | profileValidationEnd
  | validationEnd

/-- The observable state of a `ProgressMonitor`: the completed counters of
its three progress tasks and the stats lists it appends to.  (The `rich`
layout rendering it drives is presentation-only and elided.) -/
structure MonitorState where
  profileTaskCompleted : Nat
  requirementTaskCompleted : Nat
  checkTaskCompleted : Nat
  passed_checks : List RequirementCheckRef
  failed_checks : List RequirementCheckRef
  passed_requirements : List Requirement
  failed_requirements : List Requirement

/-- `ProgressMonitor.update` (`validate.py`, lines 361-389): START events
only log; a REQUIREMENT_CHECK_VALIDATION_END or REQUIREMENT_VALIDATION_END
whose requirement is hidden is ignored entirely; otherwise the matching
progress counter advances and the pass/fail stats list is appended to;
PROFILE_VALIDATION_END advances the profile counter unconditionally;
VALIDATION_END only updates the layout's overall-result rendering. -/
def monitorUpdate (s : MonitorState) : Event → MonitorState
  | .requirementCheckValidationEnd rc vr =>
    if rc.requirement.hidden then s
    else
      let s1 := { s with checkTaskCompleted := s.checkTaskCompleted + 1 }
      match vr with
      | none => s1
      | some passed =>
        if passed then { s1 with passed_checks := s1.passed_checks ++ [rc] }
        else { s1 with failed_checks := s1.failed_checks ++ [rc] }
  | .requirementValidationEnd r passed =>
    if r.hidden then s
    else
      let s1 := { s with requirementTaskCompleted := s.requirementTaskCompleted + 1 }
      if passed then { s1 with passed_requirements := s1.passed_requirements ++ [r] }
      else { s1 with failed_requirements := s1.failed_requirements ++ [r] }
  | .profileValidationEnd => { s with profileTaskCompleted := s.profileTaskCompleted + 1 }
  | _ => s

/-- Sets a requirement's hidden flag, leaving everything else unchanged. -/
def Requirement.setHidden (r : Requirement) (b : Bool) : Requirement :=
  { r with hidden := b }

/-- Marks every requirement of a profile as hidden. -/
def Profile.hideAll (p : Profile) : Profile :=
  { p with requirements := p.requirements.map (fun r => r.setHidden true) }

/-! ## The `validate` CLI command (`validate.py`) -/

/-- A parsed-or-not target reference as seen by `validate_uri`: the raw
value and the predicates of `rocrate_validator.utils.URI` (not in the
visible sources, modelled from the spec and from the CLI's own error
message: `is_local_file` stands for "a ZIP file (local or remote)" being a
local file, `parses` is false when the `URI` constructor raises
`ValueError`). -/
structure URIRef where
  value : String
  parses : Bool
  is_remote_resource : Bool
  is_local_directory : Bool
  is_local_file : Bool
  is_available : Bool

/-- `validate_uri` (`validate.py`, lines 44-61): the click callback run on
the `rocrate-uri` argument before the command body.  A falsy (empty) value
is passed through unchecked; otherwise the URI must parse, must be a remote
resource, local directory or local file, and must be available, or a
`click.BadParameter` error (modelled as `Except.error`) is raised. -/
def validate_uri (u : URIRef) : Except String String :=
  if u.value == "" then Except.ok u.value
  else if !u.parses then Except.error "Invalid RO-crate path or URI"
  else if !u.is_remote_resource && !u.is_local_directory && !u.is_local_file then
    Except.error "Invalid RO-Crate URI: it MUST be a local directory or a ZIP file (local or remote)"
  else if !u.is_available then Except.error "RO-crate URI not available"
  else Except.ok u.value

/-- The fixed Level-name set offered to `click.Choice`:
`[s.name for s in Severity]`. -/
def severityNames : List String :=
  [Severity.OPTIONAL.sname, Severity.RECOMMENDED.sname, Severity.REQUIRED.sname]

/-- Python `str.upper()` on the ASCII level names, used for the
case-insensitive match of `click.Choice(case_sensitive=False)`. -/
def pyUpper (s : String) : String := String.mk (s.toList.map Char.toUpper)

/-- Modelled from the spec: `LevelCollection.get` / `Severity.get` (§4.1,
`models.py` not in the visible sources): case-insensitive lookup of a
Level by name in the fixed set, `none` standing for `UnknownLevelError`.
`click.Choice([s.name for s in Severity], case_sensitive=False)` accepts a
value iff this lookup succeeds, and normalizes it to the declared name, so
the composition of the click validation with the later
`LevelCollection.get(requirement_severity)` at line 288 is exactly this
lookup. -/
def severityGet (name : String) : Option Severity :=
  [Severity.OPTIONAL, Severity.RECOMMENDED, Severity.REQUIRED].find?
    (fun sev => pyUpper sev.sname == pyUpper name)

/-- The observable outcome of invoking the `validate` CLI command: either a
parameter/lookup error raised before any validation run starts (carrying no
result), or a completed run with its process exit code and result. -/
inductive CliOutcome where
  | parameterError (msg : String)
  | ran (exitCode : Nat) (result : ValidationResult)

/-- The `validate` command pipeline (`validate.py`):
click validates the `rocrate-uri` argument via `validate_uri` and the
`--requirement-severity` option against `click.Choice([s.name for s in
Severity], case_sensitive=False)` before the command body runs; the body
then runs the validation (abstracted as the `run` oracle, from settings to
result) and exits with `0 if result.passed(LevelCollection.get(
requirement_severity).severity) else 1` (line 288). -/
def validateCommand (u : URIRef) (requirement_severity : String)
    (run : Severity → ValidationResult) : CliOutcome :=
  match validate_uri u with
  | Except.error e => CliOutcome.parameterError e
  | Except.ok _ =>
    match severityGet requirement_severity with
    | none => CliOutcome.parameterError "Invalid value for -l / --requirement-severity"
    | some sev =>
      let result := run sev
      CliOutcome.ran (if result.passed sev then 0 else 1) result

/-! ## Concrete example inputs used by counterexamples and witnesses -/

/-- A context whose file descriptor is absent. -/
def ctxNoFile : ValidationContext :=
  ⟨"ro-crate-metadata.json", "/crate/ro-crate-metadata.json", false, 0, none⟩

/-- A context whose file descriptor parses to a JSON object that has an
`@context` key but no `@graph` key. -/
def ctxNoGraph : ValidationContext :=
  ⟨"ro-crate-metadata.json", "/crate/ro-crate-metadata.json", true, 42,
    some (JValue.obj [("@context", JValue.str "https://w3id.org/ro/crate/1.1/context")])⟩

/-- A trivially passing check procedure. -/
def passingProc : ValidationContext → ProcOutcome := fun _ => ProcOutcome.ok true []

/-- A check procedure that raises (Python `KeyError`). -/
def raisingProc : ValidationContext → ProcOutcome := fun _ => ProcOutcome.exn [] "KeyError"

/-- A single resolved profile holding one non-hidden REQUIRED requirement
with one passing check: the concrete input where the stats/orchestrator
divergence under `requirement_severity_only` shows. -/
def oneReqProfiles : List Profile :=
  [⟨"ro-crate", [⟨"R1", Severity.REQUIRED, false, [⟨"C1x", Severity.REQUIRED, [passingProc]⟩]⟩]⟩]

/-- The run configuration of the divergence input: threshold RECOMMENDED,
severity-only enabled, no fail-fast. -/
def severityOnlyCfg : OrchConfig := ⟨Severity.RECOMMENDED, true, false⟩

/-- A target reference that is a local directory but not available. -/
def unavailableDirURI : URIRef := ⟨"/data/crate", true, false, true, false, false⟩

/-- A well-formed, available local-directory target reference. -/
def goodURI : URIRef := ⟨"/data/crate", true, false, true, false, true⟩

/-- A run oracle returning a clean (issue-free) result. -/
def cleanRun : Severity → ValidationResult := fun _ => ⟨[], [], [], [], []⟩

/-- A result holding a single REQUIRED-severity issue. -/
def oneIssueResult : ValidationResult :=
  ⟨[⟨Severity.REQUIRED, "file descriptor \"ro-crate-metadata.json\" is not present",
     "FileDescriptorExistence"⟩], [], ["FileDescriptorExistence"], [], ["R1"]⟩

/-- A run oracle returning `oneIssueResult`. -/
def failingRun : Severity → ValidationResult := fun _ => oneIssueResult

/-- A monitor state with arbitrary concrete counter values. -/
def exMonitorState : MonitorState := ⟨3, 5, 7, [], [], [], []⟩

/-- A hidden requirement (no checks needed for the monitor claims). -/
def hiddenReq : Requirement := ⟨"RH", Severity.REQUIRED, true, []⟩

/-- A check reference owned by the hidden requirement. -/
def hiddenRCRef : RequirementCheckRef :=
  ⟨⟨"CH", Severity.REQUIRED, [passingProc]⟩, hiddenReq⟩


/-! # Theorems -/

/-- The Check Runner in closed form: a native check passes iff every test
procedure passes, and the issues appended to the result are the
concatenation, in declared order, of each procedure's contribution. -/
theorem runCheck_eq (c : Check) (ctx : ValidationContext) :
    runCheck c ctx =
      (c.procs.all (fun p => procPassed (p ctx)),
       (c.procs.map (fun p => procIssues c.identifier (p ctx))).flatten) := by
  unfold runCheck
  suffices h : ∀ (l : List (ValidationContext → ProcOutcome)) (b : Bool) (is : List Issue),
      l.foldl
        (fun acc p =>
          let o := p ctx
          (acc.1 && procPassed o, acc.2 ++ procIssues c.identifier o)) (b, is)
        = (b && l.all (fun p => procPassed (p ctx)),
           is ++ (l.map (fun p => procIssues c.identifier (p ctx))).flatten) by
    simpa using h c.procs true []
  intro l
  induction l with
  | nil => intro b is; simp
  | cons p rest ih =>
    intro b is
    simp [List.all_cons, ih, Bool.and_assoc, List.append_assoc]

/-- C6: a native check passes iff all of its test procedures pass; in
particular FileDescriptorExistence passes iff the file at
`context.file_descriptor_path` exists and has nonzero size, and when the
file does not exist both of its test procedures return False, each
appending one issue to `context.result`. -/
theorem C6_native_check_passes_iff_all_procs (ctx : ValidationContext) :
    (∀ c : Check, (runCheck c ctx).1 = c.procs.all (fun p => procPassed (p ctx))) ∧
    (runCheck FileDescriptorExistence ctx).1 =
      (ctx.file_descriptor_exists && !(ctx.file_descriptor_size == 0)) ∧
    (ctx.file_descriptor_exists = false →
      (∃ i, test_existence ctx = ProcOutcome.ok false [i]) ∧
      (∃ i, test_size ctx = ProcOutcome.ok false [i])) := by
  refine ⟨fun c => by rw [runCheck_eq], ?_, ?_⟩
  · rw [runCheck_eq]
    cases hex : ctx.file_descriptor_exists with
    | false => simp [FileDescriptorExistence, test_existence, test_size, hex, procPassed]
    | true =>
      cases hsz : ctx.file_descriptor_size == 0 with
      | false => simp [FileDescriptorExistence, test_existence, test_size, hex, hsz, procPassed]
      | true => simp [FileDescriptorExistence, test_existence, test_size, hex, hsz, procPassed]
  · intro h
    exact ⟨⟨_, by simp [test_existence, h]; try rfl⟩, ⟨_, by simp [test_size, h]; try rfl⟩⟩

/-- Witness for C6 at a context whose file descriptor is absent. -/
theorem C6_witness :
    (runCheck FileDescriptorExistence ctxNoFile).1 = false ∧
    ((∃ i, test_existence ctxNoFile = ProcOutcome.ok false [i]) ∧
     (∃ i, test_size ctxNoFile = ProcOutcome.ok false [i])) := by
  have h := C6_native_check_passes_iff_all_procs ctxNoFile
  exact ⟨by rw [h.2.1]; rfl, h.2.2 rfl⟩

/-- C5: an exception raised by one test procedure of a native check is
caught and converted into exactly one Error-severity Issue attributed to
the check, the procedure counts as failed, the remaining procedures still
run (their issue contributions appear after the converted one), and —
`runCheck` being a total function — the exception never propagates out of
the run. -/
theorem C5_exception_recovered_locally (cid : String) (sev : Severity)
    (pre post : List (ValidationContext → ProcOutcome))
    (p : ValidationContext → ProcOutcome) (ctx : ValidationContext)
    (preIssues : List Issue) (m : String)
    (hp : p ctx = ProcOutcome.exn preIssues m) :
    procPassed (p ctx) = false ∧
    (runCheck ⟨cid, sev, pre ++ p :: post⟩ ctx).1 = false ∧
    (runCheck ⟨cid, sev, pre ++ p :: post⟩ ctx).2 =
      (pre.map (fun q => procIssues cid (q ctx))).flatten
        ++ (preIssues ++ [⟨errorSeverity, m, cid⟩])
        ++ (post.map (fun q => procIssues cid (q ctx))).flatten := by
  refine ⟨by simp [hp, procPassed], ?_, ?_⟩
  · rw [runCheck_eq]
    simp [List.all_append, hp, procPassed]
  · rw [runCheck_eq]
    simp [hp, procIssues, List.append_assoc]

/-- Witness for C5: a concrete raising procedure between two passing ones. -/
theorem C5_witness :
    procPassed (raisingProc ctxNoGraph) = false ∧
    (runCheck ⟨"FileDescriptorJsonLdFormat", Severity.REQUIRED,
        [passingProc] ++ raisingProc :: [passingProc]⟩ ctxNoGraph).1 = false ∧
    (runCheck ⟨"FileDescriptorJsonLdFormat", Severity.REQUIRED,
        [passingProc] ++ raisingProc :: [passingProc]⟩ ctxNoGraph).2 =
      ([passingProc].map (fun q => procIssues "FileDescriptorJsonLdFormat" (q ctxNoGraph))).flatten
        ++ ([] ++ [⟨errorSeverity, "KeyError", "FileDescriptorJsonLdFormat"⟩])
        ++ ([passingProc].map (fun q => procIssues "FileDescriptorJsonLdFormat" (q ctxNoGraph))).flatten :=
  C5_exception_recovered_locally "FileDescriptorJsonLdFormat" Severity.REQUIRED
    [passingProc] [passingProc] raisingProc ctxNoGraph [] "KeyError" rfl

/-- C9: when the dict returned by `get_json_dict` is an object with no
`@graph` key (in particular the empty dict returned on a parse failure),
`check_identifiers` and `check_types` raise `KeyError` at the subscript
`json_dict["@graph"]` instead of returning False. -/
theorem C9_missing_graph_raises_keyerror (self : FileDescriptorJsonLdFormat.FDState)
    (ctx : ValidationContext) (fields : List (String × JValue))
    (h1 : (FileDescriptorJsonLdFormat.get_json_dict self ctx).1 = JValue.obj fields)
    (h2 : lookupField fields "@graph" = none) :
    (FileDescriptorJsonLdFormat.check_identifiers self ctx).1 = Except.error PyErr.keyError ∧
    (FileDescriptorJsonLdFormat.check_types self ctx).1 = Except.error PyErr.keyError := by
  constructor <;>
    simp [FileDescriptorJsonLdFormat.check_identifiers, FileDescriptorJsonLdFormat.check_types,
      FileDescriptorJsonLdFormat.check_attr_of_entities, pySubscript, h1, h2]

/-- Witness for C9 at a parsed descriptor holding only `@context`. -/
theorem C9_witness :
    (FileDescriptorJsonLdFormat.check_identifiers ⟨none⟩ ctxNoGraph).1 =
      Except.error PyErr.keyError ∧
    (FileDescriptorJsonLdFormat.check_types ⟨none⟩ ctxNoGraph).1 =
      Except.error PyErr.keyError :=
  C9_missing_graph_raises_keyerror ⟨none⟩ ctxNoGraph
    [("@context", JValue.str "https://w3id.org/ro/crate/1.1/context")] rfl rfl

/-- C3 (code-bug evidence): `FileDescriptorJsonLdFormat.get_json_dict`
mutates the check instance itself — a fresh instance has an empty
`_json_dict_cache`, and after one call on a parsable descriptor the
instance carries the parsed document in its own cache, so the check is not
stateless and derived data does not live only in the Validation Context. -/
theorem C3_check_instance_cache_mutates :
    (FileDescriptorJsonLdFormat.FDState.mk none).json_dict_cache.isSome = false ∧
    ((FileDescriptorJsonLdFormat.get_json_dict ⟨none⟩ ctxNoGraph).2.1).json_dict_cache.isSome
      = true := by
  exact ⟨rfl, rfl⟩

/-- C2 (code-bug evidence): on a profile with one non-hidden REQUIRED
requirement holding one check, with threshold RECOMMENDED and the
severity-only flag set, `__compute_profile_stats__` counts 1 requirement
and 1 check, while the Orchestrator — which honors the shared threshold
predicate of §4.2/§4.5 — executes 0 requirements and 0 checks: the stats
totals do not equal the executed counts because the CLI duplicates the
predicate and drops the severity-only part. -/
theorem C2_stats_orchestrator_divergence :
    (computeProfileStats oneReqProfiles Severity.RECOMMENDED true).total_requirements = 1 ∧
    (computeProfileStats oneReqProfiles Severity.RECOMMENDED true).total_checks = 1 ∧
    (orchestrate severityOnlyCfg ctxNoGraph oneReqProfiles).executedRequirements.length = 0 ∧
    (orchestrate severityOnlyCfg ctxNoGraph oneReqProfiles).executedChecks.length = 0 := by
  exact ⟨rfl, rfl, rfl, rfl⟩

/-- C1 counterexample: at the same concrete input, the claim's predicate
(`severity == threshold` because `severityOnly` is true) counts 0
requirements, but `__compute_profile_stats__` counts 1: the claimed "iff"
is false at this input. -/
theorem C1_counterexample :
    (computeProfileStats oneReqProfiles Severity.RECOMMENDED true).total_requirements = 1 ∧
    ((oneReqProfiles.flatMap (fun p => p.requirements)).countP
      (fun r => !r.hidden && satisfies r.severity Severity.RECOMMENDED true)) = 0 ∧
    (computeProfileStats oneReqProfiles Severity.RECOMMENDED true).total_requirements ≠
      ((oneReqProfiles.flatMap (fun p => p.requirements)).countP
        (fun r => !r.hidden && satisfies r.severity Severity.RECOMMENDED true)) := by
  refine ⟨rfl, rfl, by decide⟩

/-- One step of the stats loop changes `total_requirements` by 1 exactly for
a non-hidden requirement whose severity is at least the validation
severity. -/
theorem statsStep_total_requirements (T : Severity) (st : ProfileStats) (r : Requirement) :
    (statsStep T st r).total_requirements =
      st.total_requirements + (if !r.hidden && sevLE T r.severity then 1 else 0) := by
  unfold statsStep
  cases hh : r.hidden <;> cases hle : sevLE T r.severity <;> simp [hh, hle]

/-- One step of the stats loop adds the requirement's own-level check count
to `total_checks` exactly for a counted requirement. -/
theorem statsStep_total_checks (T : Severity) (st : ProfileStats) (r : Requirement) :
    (statsStep T st r).total_checks =
      st.total_checks + (if !r.hidden && sevLE T r.severity
        then (get_checks_by_level r r.severity).length else 0) := by
  unfold statsStep
  cases hh : r.hidden <;> cases hle : sevLE T r.severity <;> simp [hh, hle]

/-- One step of the stats loop, effect on the per-severity requirement
counter at key `s`. -/
theorem statsStep_requirement_count (T : Severity) (st : ProfileStats) (r : Requirement)
    (s : Severity) :
    (statsStep T st r).requirement_count_by_severity s =
      st.requirement_count_by_severity s +
        (if (!r.hidden && sevLE T r.severity) && s == r.severity then 1 else 0) := by
  unfold statsStep
  cases hh : r.hidden <;> cases hle : sevLE T r.severity <;> cases hb : (s == r.severity) <;>
    simp [hh, hle, hb]

/-- One step of the stats loop, effect on the per-severity check counter at
key `s`. -/
theorem statsStep_check_count (T : Severity) (st : ProfileStats) (r : Requirement)
    (s : Severity) :
    (statsStep T st r).check_count_by_severity s =
      st.check_count_by_severity s +
        (if (!r.hidden && sevLE T r.severity) && s == r.severity
          then (get_checks_by_level r r.severity).length else 0) := by
  unfold statsStep
  cases hh : r.hidden <;> cases hle : sevLE T r.severity <;> cases hb : (s == r.severity) <;>
    simp [hh, hle, hb]

/-- The stats loop over a requirement list, `total_requirements` in closed
form. -/
theorem statsFold_total_requirements (T : Severity) (reqs : List Requirement)
    (st : ProfileStats) :
    (reqs.foldl (statsStep T) st).total_requirements =
      st.total_requirements + reqs.countP (fun r => !r.hidden && sevLE T r.severity) := by
  induction reqs generalizing st with
  | nil => simp
  | cons r rest ih =>
    rw [List.foldl_cons, ih, List.countP_cons, statsStep_total_requirements]
    cases h : (!r.hidden && sevLE T r.severity) <;> simp [h] <;> omega

/-- The stats loop over a requirement list, `total_checks` in closed form. -/
theorem statsFold_total_checks (T : Severity) (reqs : List Requirement)
    (st : ProfileStats) :
    (reqs.foldl (statsStep T) st).total_checks =
      st.total_checks +
        ((reqs.filter (fun r => !r.hidden && sevLE T r.severity)).map
          (fun r => (get_checks_by_level r r.severity).length)).sum := by
  induction reqs generalizing st with
  | nil => simp
  | cons r rest ih =>
    rw [List.foldl_cons, ih, List.filter_cons, statsStep_total_checks]
    cases h : (!r.hidden && sevLE T r.severity) <;> simp [h] <;> omega

/-- The stats loop over a requirement list, per-severity requirement counter
in closed form. -/
theorem statsFold_requirement_count (T : Severity) (reqs : List Requirement)
    (st : ProfileStats) (s : Severity) :
    (reqs.foldl (statsStep T) st).requirement_count_by_severity s =
      st.requirement_count_by_severity s +
        reqs.countP (fun r => (!r.hidden && sevLE T r.severity) && s == r.severity) := by
  induction reqs generalizing st with
  | nil => simp
  | cons r rest ih =>
    rw [List.foldl_cons, ih, List.countP_cons, statsStep_requirement_count]
    cases h : ((!r.hidden && sevLE T r.severity) && s == r.severity) <;> simp [h] <;> omega

/-- The stats loop over a requirement list, per-severity check counter in
closed form. -/
theorem statsFold_check_count (T : Severity) (reqs : List Requirement)
    (st : ProfileStats) (s : Severity) :
    (reqs.foldl (statsStep T) st).check_count_by_severity s =
      st.check_count_by_severity s +
        ((reqs.filter (fun r => (!r.hidden && sevLE T r.severity) && s == r.severity)).map
          (fun r => (get_checks_by_level r r.severity).length)).sum := by
  induction reqs generalizing st with
  | nil => simp
  | cons r rest ih =>
    rw [List.foldl_cons, ih, List.filter_cons, statsStep_check_count]
    cases h : ((!r.hidden && sevLE T r.severity) && s == r.severity) <;> simp [h] <;> omega

/-- The nested profile/requirement loop of `__compute_profile_stats__`
equals one stats loop over the concatenated requirement lists. -/
theorem foldl_statsStep_flatMap (T : Severity) (profiles : List Profile)
    (st : ProfileStats) :
    profiles.foldl (fun stats profile => profile.requirements.foldl (statsStep T) stats) st =
      (profiles.flatMap (fun p => p.requirements)).foldl (statsStep T) st := by
  induction profiles generalizing st with
  | nil => rfl
  | cons p ps ih => simp [List.flatMap_cons, List.foldl_append, ih]

/-- C1 (amended): for every resolved profile sequence, threshold severity T
and severityOnly flag, `__compute_profile_stats__` counts a non-hidden
requirement toward requirementCountBySeverity/totalRequirements iff its
severity is ≥ T — regardless of the severityOnly flag, which the function
never reads — and, for exactly those requirements, counts toward
checkCountBySeverity/totalChecks the checks returned by
`get_checks_by_level` at the requirement's own severity. -/
theorem C1_amended_stats_counts (profiles : List Profile) (T : Severity) (so : Bool) :
    (computeProfileStats profiles T so).total_requirements =
      (profiles.flatMap (fun p => p.requirements)).countP
        (fun r => !r.hidden && sevLE T r.severity) ∧
    (computeProfileStats profiles T so).total_checks =
      (((profiles.flatMap (fun p => p.requirements)).filter
          (fun r => !r.hidden && sevLE T r.severity)).map
        (fun r => (get_checks_by_level r r.severity).length)).sum ∧
    (∀ s, (computeProfileStats profiles T so).requirement_count_by_severity s =
      (profiles.flatMap (fun p => p.requirements)).countP
        (fun r => (!r.hidden && sevLE T r.severity) && s == r.severity)) ∧
    (∀ s, (computeProfileStats profiles T so).check_count_by_severity s =
      (((profiles.flatMap (fun p => p.requirements)).filter
          (fun r => (!r.hidden && sevLE T r.severity) && s == r.severity)).map
        (fun r => (get_checks_by_level r r.severity).length)).sum) := by
  unfold computeProfileStats
  rw [foldl_statsStep_flatMap]
  refine ⟨?_, ?_, fun s => ?_, fun s => ?_⟩
  · rw [statsFold_total_requirements]; simp
  · rw [statsFold_total_checks]; simp
  · rw [statsFold_requirement_count]; simp
  · rw [statsFold_check_count]; simp

/-- The Orchestrator's per-requirement step never consults the hidden
flag. -/
theorem runRequirement_setHidden (cfg : OrchConfig) (ctx : ValidationContext)
    (o : OrchOutcome) (r : Requirement) (b : Bool) :
    runRequirement cfg ctx o (r.setHidden b) = runRequirement cfg ctx o r := by
  cases r
  rfl

/-- Folding the Orchestrator's requirement step over hidden-marked
requirements equals folding it over the originals. -/
theorem foldl_runRequirement_setHidden (cfg : OrchConfig) (ctx : ValidationContext)
    (rs : List Requirement) (o : OrchOutcome) :
    (rs.map (fun r => r.setHidden true)).foldl (runRequirement cfg ctx) o =
      rs.foldl (runRequirement cfg ctx) o := by
  induction rs generalizing o with
  | nil => rfl
  | cons r rest ih => simp [runRequirement_setHidden, ih]

/-- A profile with all requirements hidden is traversed exactly like the
original profile. -/
theorem runProfile_hideAll (cfg : OrchConfig) (ctx : ValidationContext)
    (o : OrchOutcome) (p : Profile) :
    runProfile cfg ctx o p.hideAll = runProfile cfg ctx o p := by
  unfold runProfile Profile.hideAll
  exact foldl_runRequirement_setHidden cfg ctx p.requirements o

/-- Folding the Orchestrator's profile step over hidden-marked profiles
equals folding it over the originals. -/
theorem foldl_runProfile_hideAll (cfg : OrchConfig) (ctx : ValidationContext)
    (ps : List Profile) (o : OrchOutcome) :
    (ps.map Profile.hideAll).foldl (runProfile cfg ctx) o =
      ps.foldl (runProfile cfg ctx) o := by
  induction ps generalizing o with
  | nil => rfl
  | cons p rest ih => simp [runProfile_hideAll, ih]

/-- C4: hiding a requirement suppresses only progress-counter visibility
in the `ProgressMonitor` — a REQUIREMENT_CHECK_VALIDATION_END or
REQUIREMENT_VALIDATION_END event whose requirement is hidden leaves the
observer's state unchanged — while the Orchestrator's traversal, executed
checks and accumulated result (hence the run's verdict) are identical
whether or not the requirements are hidden. -/
theorem C4_hidden_only_suppresses_progress :
    (∀ (s : MonitorState) (rc : RequirementCheckRef) (vr : Option Bool),
      rc.requirement.hidden = true →
      monitorUpdate s (Event.requirementCheckValidationEnd rc vr) = s) ∧
    (∀ (s : MonitorState) (r : Requirement) (b : Bool),
      r.hidden = true → monitorUpdate s (Event.requirementValidationEnd r b) = s) ∧
    (∀ (cfg : OrchConfig) (ctx : ValidationContext) (profiles : List Profile),
      orchestrate cfg ctx (profiles.map Profile.hideAll) = orchestrate cfg ctx profiles) := by
  refine ⟨?_, ?_, ?_⟩
  · intro s rc vr h
    simp [monitorUpdate, h]
  · intro s r b h
    simp [monitorUpdate, h]
  · intro cfg ctx profiles
    unfold orchestrate
    exact foldl_runProfile_hideAll cfg ctx profiles _

/-- Witness for C4 at a concrete monitor state, hidden requirement and
profile list. -/
theorem C4_witness :
    monitorUpdate exMonitorState
      (Event.requirementCheckValidationEnd hiddenRCRef (some false)) = exMonitorState ∧
    monitorUpdate exMonitorState
      (Event.requirementValidationEnd hiddenReq false) = exMonitorState ∧
    orchestrate severityOnlyCfg ctxNoGraph (oneReqProfiles.map Profile.hideAll) =
      orchestrate severityOnlyCfg ctxNoGraph oneReqProfiles :=
  ⟨C4_hidden_only_suppresses_progress.1 exMonitorState hiddenRCRef (some false) rfl,
   C4_hidden_only_suppresses_progress.2.1 exMonitorState hiddenReq false rfl,
   C4_hidden_only_suppresses_progress.2.2 severityOnlyCfg ctxNoGraph oneReqProfiles⟩

/-- C7: a `--requirement-severity` name that matches no Level name even
case-insensitively makes the `validate` command fail with a
parameter/lookup error, and no validation run starts (the outcome carries
no run result). -/
theorem C7_unknown_severity_name_fails (u : URIRef) (name : String)
    (run : Severity → ValidationResult)
    (h : (severityNames.any (fun n => pyUpper n == pyUpper name)) = false) :
    ∃ msg, validateCommand u name run = CliOutcome.parameterError msg := by
  have hg : severityGet name = none := by
    simp only [severityNames, Severity.sname, List.any_cons, List.any_nil,
      Bool.or_false, Bool.or_eq_false_iff] at h
    simp [severityGet, List.find?, Severity.sname, h.1, h.2.1, h.2.2]
  cases hu : validate_uri u with
  | error e => exact ⟨e, by simp [validateCommand, hu]⟩
  | ok v =>
    exact ⟨"Invalid value for -l / --requirement-severity",
      by simp [validateCommand, hu, hg]⟩

/-- Witness for C7 at the unrecognized name SEVERE. -/
theorem C7_witness :
    ∃ msg, validateCommand goodURI "SEVERE" cleanRun = CliOutcome.parameterError msg :=
  C7_unknown_severity_name_fails goodURI "SEVERE" cleanRun (by decide)

/-- C8: a non-empty target reference that is not an (available) remote
resource, local directory or local (ZIP) file is rejected by the
`validate_uri` click callback, so the command fails with a parameter error
before orchestration starts and the outcome carries no result. -/
theorem C8_unavailable_target_fails (u : URIRef) (name : String)
    (run : Severity → ValidationResult)
    (hne : u.value ≠ "")
    (h : (u.is_available &&
      (u.is_remote_resource || u.is_local_directory || u.is_local_file)) = false) :
    ∃ msg, validateCommand u name run = CliOutcome.parameterError msg := by
  have hv : (u.value == "") = false := by
    simp [hne]
  have hu : ∃ e, validate_uri u = Except.error e := by
    cases hp : u.parses with
    | false => exact ⟨"Invalid RO-crate path or URI", by simp [validate_uri, hv, hp]⟩
    | true =>
      cases hr : u.is_remote_resource <;> cases hd : u.is_local_directory <;>
        cases hf : u.is_local_file <;> cases ha : u.is_available <;>
          simp_all [validate_uri]
  obtain ⟨e, he⟩ := hu
  exact ⟨e, by simp [validateCommand, he]⟩

/-- Witness for C8 at an unavailable local-directory reference. -/
theorem C8_witness :
    ∃ msg, validateCommand unavailableDirURI "REQUIRED" cleanRun =
      CliOutcome.parameterError msg :=
  C8_unavailable_target_fails unavailableDirURI "REQUIRED" cleanRun
    (by decide) (by decide)

/-- C10: whenever the `validate` command completes a run (no parameter
error and no fatal exception), the process exit status is
`0 if result.passed(LevelCollection.get(requirement_severity).severity)
else 1`: exit code 0 iff the result passes at the configured
requirement-severity threshold, and 1 otherwise. -/
theorem C10_exit_code_matches_passed (u : URIRef) (name : String)
    (run : Severity → ValidationResult) (code : Nat) (result : ValidationResult)
    (h : validateCommand u name run = CliOutcome.ran code result) :
    ∃ sev, severityGet name = some sev ∧ result = run sev ∧
      (code = 0 ↔ result.passed sev = true) ∧
      (code = 1 ↔ result.passed sev = false) := by
  unfold validateCommand at h
  cases hu : validate_uri u with
  | error e => rw [hu] at h; exact absurd h (by simp)
  | ok v =>
    rw [hu] at h
    cases hg : severityGet name with
    | none => rw [hg] at h; exact absurd h (by simp)
    | some sev =>
      rw [hg] at h
      simp only [CliOutcome.ran.injEq] at h
      obtain ⟨hc, hr⟩ := h
      refine ⟨sev, rfl, hr.symm, ?_, ?_⟩ <;>
        cases hps : (run sev).passed sev <;>
          simp_all <;> omega

/-- Witness for C10 at a clean run with the REQUIRED threshold given in
lower case. -/
theorem C10_witness :
    ∃ sev, severityGet "required" = some sev ∧
      (⟨[], [], [], [], []⟩ : ValidationResult) = cleanRun sev ∧
      ((0 : Nat) = 0 ↔ ValidationResult.passed ⟨[], [], [], [], []⟩ sev = true) ∧
      ((0 : Nat) = 1 ↔ ValidationResult.passed ⟨[], [], [], [], []⟩ sev = false) :=
  C10_exit_code_matches_passed goodURI "required" cleanRun 0 ⟨[], [], [], [], []⟩ rfl

end RocrateValidator
